import Mathlib

/-!
Verification of the public-IP checker (`main.py`).

The script is embedded shallowly: every function of the source becomes a pure
Lean function.  Time stamps are rationals (epoch seconds); the several
`time.time()` calls that the source makes in immediate succession are modelled
as one instant, and `time.sleep(90)` in the diagnostic loop advances the clock
by exactly 90 seconds (the ideal-time model: all non-sleeping work is
instantaneous).  Network I/O is a `Network` value giving the outcome of the
primary and backup HTTP GET; a `requests` exception of any kind
(timeout, non-2xx status via `raise_for_status`, network error) is the
`FetchResult.err` constructor carrying the exception text.  Side effects
(Apprise notifications, console prints, file writes, diagnostic polls) become
an explicit `Event` trace, and the durable state — `PreviousIP.txt` and
`heartbeat.json` — is an `FSState` on which a trace is replayed by `runFS`.
Config loading and Apprise construction (lines 96–102) touch no claim and are
omitted; a malformed `heartbeat.json` raises inside `json.load` and is
likewise outside the model (`FSState.heartbeatFile` holds a parsed record or
nothing).
-/

namespace PubIP

/-- Python `int()` truncation toward zero, applied to an exact rational. -/
def pytrunc (q : ℚ) : ℤ := if 0 ≤ q then ⌊q⌋ else ⌈q⌉

/-- Remove leading and trailing whitespace characters from a character list. -/
def stripChars (l : List Char) : List Char :=
  ((l.dropWhile Char.isWhitespace).reverse.dropWhile Char.isWhitespace).reverse

/-- Python `str.strip()` with no argument: the string without surrounding
whitespace (modelled over the ASCII whitespace characters). -/
def pystrip (s : String) : String := ⟨stripChars s.data⟩

/-- Outcome of one HTTP GET (`requests.get` + `raise_for_status`):
either a 2xx response body, or a `RequestException` with message `msg`. -/
inductive FetchResult where
  | ok (body : String)
  | err (msg : String)
deriving DecidableEq, Repr

/-- The network environment of one resolver call: what the primary source
(`api.ipify.org`) and the backup source (`ifconfig.me/ip`) would return. -/
structure Network where
  primary : FetchResult
  secondary : FetchResult
deriving DecidableEq, Repr

/-- One outgoing HTTP request: target URL and timeout in seconds. -/
structure Request where
  url : String
  timeout : ℚ
deriving DecidableEq, Repr

/-- Everything `get_public_ip` does: the requests it issues (in order), the
console lines it prints, and its return value (`none` models Python `None`). -/
structure ResolveOutcome where
  requests : List Request
  logs : List String
  result : Option String
deriving DecidableEq, Repr

/-- Embedding of `get_public_ip` (main.py lines 13–32).  Primary source with a
5-second timeout; on any `RequestException` the backup source with the same
timeout; a success from either is returned with `.strip()` (here
`pystrip`); if both fail, the error is printed and `None` is returned —
no exception escapes, since the model is a total function. -/
def get_public_ip (net : Network) : ResolveOutcome :=
  match net.primary with
  | .ok body => ⟨[⟨"https://api.ipify.org", 5⟩], [], some (pystrip body)⟩
  | .err _ =>
    match net.secondary with
    | .ok body =>
        ⟨[⟨"https://api.ipify.org", 5⟩, ⟨"https://ifconfig.me/ip", 5⟩], [], some (pystrip body)⟩
    | .err e =>
        ⟨[⟨"https://api.ipify.org", 5⟩, ⟨"https://ifconfig.me/ip", 5⟩],
         ["[ERROR] Unable to retrieve public IP: " ++ e], none⟩

/-- The `heartbeat.json` record: three JSON fields (main.py lines 46–50). -/
structure HeartbeatRecord where
  start_time : ℚ
  last_ip_change : ℚ
  ip_change_count : ℤ
deriving DecidableEq, Repr

/-- Embedding of `load_heartbeat` (main.py lines 34–50): the parsed file if it
exists, otherwise a fresh record with both times set to now and a zero count
(not yet persisted). -/
def load_heartbeat (file : Option HeartbeatRecord) (now : ℚ) : HeartbeatRecord :=
  match file with
  | some heartbeat => heartbeat
  | none => ⟨now, now, 0⟩

/-- One observable side effect of an invocation, in program order.
`poll t r` is one iteration of the diagnostic loop: a resolver call at time
`t` whose result `r` is printed as the corresponding `[VERBOSE]` line. -/
inductive Event where
  | notify (title body : String)
  | log (msg : String)
  | writePrevIP (contents : String)
  | writeHeartbeat (record : HeartbeatRecord)
  | poll (t : ℚ) (result : Option String)
deriving DecidableEq, Repr

/-- Embedding of `handle_heartbeat` (main.py lines 62–87): the events it emits
and the record as it leaves the function (the Python dict is mutated in
place, so the caller sees the reset `start_time`). -/
def handle_heartbeat (heartbeat : HeartbeatRecord) (now : ℚ) :
    List Event × HeartbeatRecord :=
  let days_since_start := (now - heartbeat.start_time) / 86400
  let days_since_last_change := (now - heartbeat.last_ip_change) / 86400
  if days_since_start ≥ 30 then
    let heartbeat_message :=
      "Heartbeat: Script has been running for " ++ toString (pytrunc days_since_start)
        ++ " days.\n"
        ++ "No IP change in " ++ toString (pytrunc days_since_last_change) ++ " days.\n"
        ++ "Total IP changes: " ++ toString heartbeat.ip_change_count
    let heartbeat' := { heartbeat with start_time := now }
    ([.notify "Spectrum_PubIP Heartbeat" heartbeat_message,
      .log "[HEARTBEAT] Heartbeat notification sent to Apprise URLs.",
      .writeHeartbeat heartbeat'], heartbeat')
  else ([], heartbeat)

/-- The durable state: contents of `PreviousIP.txt` and `heartbeat.json`
(`none` = file absent). -/
structure FSState where
  prevIPFile : Option String
  heartbeatFile : Option HeartbeatRecord
deriving DecidableEq, Repr

/-- Embedding of the inline previous-IP read (main.py lines 140–144):
trimmed file contents, or the empty string when the file does not exist. -/
def read_previous_ip (fs : FSState) : String :=
  match fs.prevIPFile with
  | some contents => pystrip contents
  | none => ""

/-- One iteration check of the diagnostic `while` loop (main.py lines
118–125).  Under the ideal-time model the elapsed time tested at the top of
iteration `i` is exactly `90 * i` seconds, and the poll of iteration `i`
happens at `start_time + 90 * i` (the `time.sleep(90)` follows the poll). -/
def verbose_poll (nets : ℕ → Network) (start_time : ℚ) (i : ℕ) : List Event :=
  if h : 90 * i < 300 then
    Event.poll (start_time + 90 * i) (get_public_ip (nets i)).result
      :: verbose_poll nets start_time (i + 1)
  else []
termination_by 4 - i
decreasing_by omega

/-- Embedding of the verbose branch of `main` (main.py lines 115–132): the
time-boxed polling sweep followed by the fixed test notification. -/
def verbose_branch (nets : ℕ → Network) (start_time : ℚ) : List Event :=
  verbose_poll nets start_time 0 ++
    [.notify "Spectrum_PubIP Test" "Apprise Test: 5 minutes elapsed in verbose mode.",
     .log "[VERBOSE] Test notification sent to Apprise URLs."]

/-- Embedding of the normal-mode branch of `main` (main.py lines 133–157):
resolve, compare with the stored previous IP, and on a difference notify,
rewrite `PreviousIP.txt`, and rewrite `heartbeat.json` with the change
recorded.  `heartbeat` is the record as `handle_heartbeat` left it. -/
def normal_branch (fs : FSState) (heartbeat : HeartbeatRecord) (now : ℚ)
    (date : String) (net : Network) : List Event :=
  let outcome := get_public_ip net
  outcome.logs.map Event.log ++
    match outcome.result with
    | none => [.log "[ERROR] Could not retrieve public IP. No notification sent."]
    | some public_ip =>
      let previous_ip := read_previous_ip fs
      if public_ip ≠ previous_ip then
        [.notify "Spectrum_PubIP" ("Public IP Check-In - " ++ date ++ "\n\n" ++ public_ip),
         .writePrevIP public_ip,
         .writeHeartbeat { heartbeat with
                             last_ip_change := now,
                             ip_change_count := heartbeat.ip_change_count + 1 }]
      else []

/-- Embedding of `main` (main.py lines 89–157) after config/Apprise setup:
load the heartbeat record, sample `now` once, run the heartbeat check, then
branch on the verbose flag.  `date` is the `%m/%d/%Y` string of line 134,
`net` the network for the normal-mode resolve, `nets i` the network for
poll `i` of the diagnostic loop. -/
def main (verbose_mode : Bool) (fs : FSState) (now : ℚ) (date : String)
    (net : Network) (nets : ℕ → Network) : List Event :=
  let heartbeat := load_heartbeat fs.heartbeatFile now
  let checked := handle_heartbeat heartbeat now
  checked.1 ++
    (if verbose_mode then verbose_branch nets now
     else normal_branch fs checked.2 now date net)

/-- Replay of one event on the durable state: only the two write events
change a file. -/
def applyEvent (fs : FSState) : Event → FSState
  | .writePrevIP contents => { fs with prevIPFile := some contents }
  | .writeHeartbeat record => { fs with heartbeatFile := some record }
  | _ => fs

/-- Replay a whole trace on the durable state. -/
def runFS (fs : FSState) (events : List Event) : FSState :=
  events.foldl applyEvent fs

/-- The notifications of a trace, as (title, body) pairs in order. -/
def notifications (events : List Event) : List (String × String) :=
  events.filterMap fun e =>
    match e with
    | .notify title body => some (title, body)
    | _ => none

/-- The file-writing events of a trace, in order. -/
def fileWrites (events : List Event) : List Event :=
  events.filter fun e =>
    match e with
    | .writePrevIP _ => true
    | .writeHeartbeat _ => true
    | _ => false

/-- The heartbeat records written by a trace, in order. -/
def heartbeatWrites (events : List Event) : List HeartbeatRecord :=
  events.filterMap fun e =>
    match e with
    | .writeHeartbeat record => some record
    | _ => none

/-- The times of the diagnostic polls of a trace, in order. -/
def pollTimes (events : List Event) : List ℚ :=
  events.filterMap fun e =>
    match e with
    | .poll t _ => some t
    | _ => none

/-- Substring containment, used for "the body contains the address". -/
def strContains (s sub : String) : Prop :=
  ∃ back front : String, s = back ++ sub ++ front

/-- The heartbeat message of a firing check, as composed on lines 75–79. -/
def heartbeat_message (heartbeat : HeartbeatRecord) (now : ℚ) : String :=
  "Heartbeat: Script has been running for "
    ++ toString (pytrunc ((now - heartbeat.start_time) / 86400)) ++ " days.\n"
    ++ "No IP change in "
    ++ toString (pytrunc ((now - heartbeat.last_ip_change) / 86400)) ++ " days.\n"
    ++ "Total IP changes: " ++ toString heartbeat.ip_change_count

/-- The firing guard `days_since_start >= 30` is exactly
"`start_time` is at least 2,592,000 seconds in the past". -/
lemma fires_iff (heartbeat : HeartbeatRecord) (now : ℚ) :
    (now - heartbeat.start_time) / 86400 ≥ 30 ↔ 2592000 ≤ now - heartbeat.start_time := by
  rw [ge_iff_le, le_div_iff₀ (by norm_num : (0:ℚ) < 86400)]
  norm_num

lemma handle_heartbeat_of_lt (heartbeat : HeartbeatRecord) (now : ℚ)
    (h : now - heartbeat.start_time < 2592000) :
    handle_heartbeat heartbeat now = ([], heartbeat) := by
  have : ¬ ((now - heartbeat.start_time) / 86400 ≥ 30) := by
    rw [fires_iff]; exact not_le.mpr h
  simp only [handle_heartbeat, this, if_false]

lemma handle_heartbeat_of_ge (heartbeat : HeartbeatRecord) (now : ℚ)
    (h : 2592000 ≤ now - heartbeat.start_time) :
    handle_heartbeat heartbeat now =
      ([.notify "Spectrum_PubIP Heartbeat" (heartbeat_message heartbeat now),
        .log "[HEARTBEAT] Heartbeat notification sent to Apprise URLs.",
        .writeHeartbeat { heartbeat with start_time := now }],
       { heartbeat with start_time := now }) := by
  have : (now - heartbeat.start_time) / 86400 ≥ 30 := (fires_iff heartbeat now).mpr h
  simp only [handle_heartbeat, this, if_true, heartbeat_message]

lemma get_public_ip_logs_of_some (net : Network) (s : String)
    (h : (get_public_ip net).result = some s) : (get_public_ip net).logs = [] := by
  unfold get_public_ip at *
  cases hp : net.primary with
  | ok body => simp [hp]
  | err m =>
      cases hs : net.secondary with
      | ok body => simp [hp, hs]
      | err e => simp [hp, hs] at h

lemma get_public_ip_of_none (net : Network)
    (h : (get_public_ip net).result = none) :
    ∃ m e : String, net.primary = .err m ∧ net.secondary = .err e ∧
      get_public_ip net =
        ⟨[⟨"https://api.ipify.org", 5⟩, ⟨"https://ifconfig.me/ip", 5⟩],
         ["[ERROR] Unable to retrieve public IP: " ++ e], none⟩ := by
  unfold get_public_ip at *
  cases hp : net.primary with
  | ok body => simp [hp] at h
  | err m =>
      cases hs : net.secondary with
      | ok body => simp [hp, hs] at h
      | err e => exact ⟨m, e, rfl, rfl, by simp [hp, hs]⟩

lemma handle_heartbeat_count (heartbeat : HeartbeatRecord) (now : ℚ) :
    (handle_heartbeat heartbeat now).2.ip_change_count = heartbeat.ip_change_count := by
  rcases lt_or_le (now - heartbeat.start_time) 2592000 with h | h
  · rw [handle_heartbeat_of_lt heartbeat now h]
  · rw [handle_heartbeat_of_ge heartbeat now h]

/-- A heartbeat write emitted by the heartbeat check is the loaded record with
`start_time` reset. -/
lemma writeHeartbeat_mem_handle (heartbeat : HeartbeatRecord) (now : ℚ)
    (record : HeartbeatRecord)
    (hmem : Event.writeHeartbeat record ∈ (handle_heartbeat heartbeat now).1) :
    record = { heartbeat with start_time := now } := by
  rcases lt_or_le (now - heartbeat.start_time) 2592000 with h | h
  · rw [handle_heartbeat_of_lt heartbeat now h] at hmem
    simp at hmem
  · rw [handle_heartbeat_of_ge heartbeat now h] at hmem
    simpa using hmem

/-- A heartbeat write emitted by the change-detection branch is the incoming
record with the change recorded. -/
lemma writeHeartbeat_mem_normal (fs : FSState) (heartbeat : HeartbeatRecord)
    (now : ℚ) (date : String) (net : Network) (record : HeartbeatRecord)
    (hmem : Event.writeHeartbeat record ∈ normal_branch fs heartbeat now date net) :
    record = { heartbeat with
                 last_ip_change := now,
                 ip_change_count := heartbeat.ip_change_count + 1 } := by
  cases hres : (get_public_ip net).result with
  | none =>
      obtain ⟨m, e, -, -, heq⟩ := get_public_ip_of_none net hres
      simp [normal_branch, heq] at hmem
  | some public_ip =>
      have hlogs := get_public_ip_logs_of_some net public_ip hres
      by_cases hip : public_ip = read_previous_ip fs
      · simp [normal_branch, hlogs, hres, hip] at hmem
      · simp [normal_branch, hlogs, hres, hip] at hmem
        exact hmem

lemma verbose_poll_step (nets : ℕ → Network) (T : ℚ) (i : ℕ) (h : 90 * i < 300) :
    verbose_poll nets T i =
      Event.poll (T + 90 * i) (get_public_ip (nets i)).result
        :: verbose_poll nets T (i + 1) := by
  rw [verbose_poll.eq_def]
  simp [h]

lemma verbose_poll_stop (nets : ℕ → Network) (T : ℚ) (i : ℕ) (h : ¬ 90 * i < 300) :
    verbose_poll nets T i = [] := by
  rw [verbose_poll.eq_def]
  simp [h]

/-- The diagnostic loop fully unfolded: four polls, 90 seconds apart. -/
lemma verbose_poll_zero (nets : ℕ → Network) (T : ℚ) :
    verbose_poll nets T 0 =
      [Event.poll T (get_public_ip (nets 0)).result,
       Event.poll (T + 90) (get_public_ip (nets 1)).result,
       Event.poll (T + 180) (get_public_ip (nets 2)).result,
       Event.poll (T + 270) (get_public_ip (nets 3)).result] := by
  rw [verbose_poll_step nets T 0 (by norm_num), verbose_poll_step nets T 1 (by norm_num),
      verbose_poll_step nets T 2 (by norm_num), verbose_poll_step nets T 3 (by norm_num),
      verbose_poll_stop nets T 4 (by norm_num)]
  norm_num

lemma writeHeartbeat_not_mem_verbose (nets : ℕ → Network) (T : ℚ)
    (record : HeartbeatRecord) :
    Event.writeHeartbeat record ∉ verbose_branch nets T := by
  simp [verbose_branch, verbose_poll_zero]

/-- Replaying the diagnostic branch changes no file. -/
lemma runFS_verbose (fs : FSState) (nets : ℕ → Network) (T : ℚ) :
    runFS fs (verbose_branch nets T) = fs := by
  simp [verbose_branch, verbose_poll_zero, runFS, applyEvent]

/-- C2: a heartbeat record whose `start_time` is 2,592,000 seconds (30 days) or
more in the past makes `handle_heartbeat` notify once and return the record
with `start_time` reset to `now` and the other two fields unchanged (and it
persists that record); with `start_time` less than 30 days in the past it
emits nothing and returns the record unmodified. -/
theorem heartbeat_threshold (heartbeat : HeartbeatRecord) (now : ℚ) :
    (2592000 ≤ now - heartbeat.start_time →
       (handle_heartbeat heartbeat now).2 = { heartbeat with start_time := now } ∧
       (handle_heartbeat heartbeat now).2.last_ip_change = heartbeat.last_ip_change ∧
       (handle_heartbeat heartbeat now).2.ip_change_count = heartbeat.ip_change_count ∧
       notifications (handle_heartbeat heartbeat now).1 =
         [("Spectrum_PubIP Heartbeat", heartbeat_message heartbeat now)] ∧
       Event.writeHeartbeat { heartbeat with start_time := now }
         ∈ (handle_heartbeat heartbeat now).1) ∧
    (now - heartbeat.start_time < 2592000 →
       handle_heartbeat heartbeat now = ([], heartbeat)) := by
  constructor
  · intro h
    rw [handle_heartbeat_of_ge heartbeat now h]
    exact ⟨rfl, rfl, rfl, by simp [notifications], by simp⟩
  · intro h
    exact handle_heartbeat_of_lt heartbeat now h

/-- Witness for C2 at the exact 30-day boundary (fires) and one second
inside the window (silent). -/
theorem heartbeat_threshold_witness :
    ((2592000 : ℚ) ≤ 2592000 - (HeartbeatRecord.mk 0 0 0).start_time ∧
      (handle_heartbeat ⟨0, 0, 0⟩ 2592000).2 =
        { HeartbeatRecord.mk 0 0 0 with start_time := 2592000 }) ∧
    ((2591999 : ℚ) - (HeartbeatRecord.mk 0 0 0).start_time < 2592000 ∧
      handle_heartbeat ⟨0, 0, 0⟩ 2591999 = ([], ⟨0, 0, 0⟩)) :=
  ⟨⟨by norm_num, ((heartbeat_threshold ⟨0, 0, 0⟩ 2592000).1 (by norm_num)).1⟩,
   ⟨by norm_num, (heartbeat_threshold ⟨0, 0, 0⟩ 2591999).2 (by norm_num)⟩⟩

/-- C3: when the resolver returns exactly the stored previous IP, the
change-detection step emits nothing at all: no notification, no file write,
and replaying its (empty) trace leaves the durable state unchanged. -/
theorem unchanged_address_noop (fs : FSState) (heartbeat : HeartbeatRecord)
    (now : ℚ) (date : String) (net : Network) (a : String)
    (hres : (get_public_ip net).result = some a)
    (hprev : read_previous_ip fs = a) :
    normal_branch fs heartbeat now date net = [] ∧
    notifications (normal_branch fs heartbeat now date net) = [] ∧
    fileWrites (normal_branch fs heartbeat now date net) = [] ∧
    runFS fs (normal_branch fs heartbeat now date net) = fs := by
  have hlogs := get_public_ip_logs_of_some net a hres
  have htr : normal_branch fs heartbeat now date net = [] := by
    simp [normal_branch, hlogs, hres, hprev]
  rw [htr]
  exact ⟨rfl, rfl, rfl, rfl⟩

/-- Witness for C3: stored "1.2.3.4", resolver returns "1.2.3.4". -/
theorem unchanged_address_noop_witness :
    (get_public_ip ⟨.ok "1.2.3.4", .err "x"⟩).result = some "1.2.3.4" ∧
    read_previous_ip ⟨some "1.2.3.4", none⟩ = "1.2.3.4" ∧
    normal_branch ⟨some "1.2.3.4", none⟩ ⟨0, 0, 0⟩ 0 "01/01/2026"
      ⟨.ok "1.2.3.4", .err "x"⟩ = [] :=
  ⟨by decide, by decide,
   (unchanged_address_noop ⟨some "1.2.3.4", none⟩ ⟨0, 0, 0⟩ 0 "01/01/2026"
      ⟨.ok "1.2.3.4", .err "x"⟩ "1.2.3.4" (by decide) (by decide)).1⟩

/-- C5: when resolution fails (`get_public_ip` returns `None`), the
normal-mode branch prints the error line and does nothing else: no
notification, no file write, durable state unchanged. -/
theorem resolution_failure_no_mutation (fs : FSState) (heartbeat : HeartbeatRecord)
    (now : ℚ) (date : String) (net : Network)
    (hres : (get_public_ip net).result = none) :
    Event.log "[ERROR] Could not retrieve public IP. No notification sent."
      ∈ normal_branch fs heartbeat now date net ∧
    notifications (normal_branch fs heartbeat now date net) = [] ∧
    fileWrites (normal_branch fs heartbeat now date net) = [] ∧
    runFS fs (normal_branch fs heartbeat now date net) = fs := by
  obtain ⟨m, e, hp, hs, heq⟩ := get_public_ip_of_none net hres
  have htr : normal_branch fs heartbeat now date net =
      [.log ("[ERROR] Unable to retrieve public IP: " ++ e),
       .log "[ERROR] Could not retrieve public IP. No notification sent."] := by
    simp [normal_branch, heq]
  rw [htr]
  exact ⟨by simp, by simp [notifications], by simp [fileWrites], rfl⟩

/-- Witness for C5: both sources fail. -/
theorem resolution_failure_no_mutation_witness :
    (get_public_ip ⟨.err "m", .err "e"⟩).result = none ∧
    notifications (normal_branch ⟨some "1.2.3.4", none⟩ ⟨0, 0, 0⟩ 0 "01/01/2026"
      ⟨.err "m", .err "e"⟩) = [] :=
  ⟨by decide,
   (resolution_failure_no_mutation ⟨some "1.2.3.4", none⟩ ⟨0, 0, 0⟩ 0 "01/01/2026"
      ⟨.err "m", .err "e"⟩ (by decide)).2.1⟩

/-- C6: the resolver tries the primary source (5-second timeout); on primary
success it returns the trimmed body having issued only that request; on any
primary failure it issues exactly one further request, to the secondary with
the same 5-second timeout, returning the trimmed secondary body on success;
when both fail it prints the error and returns `None` (the model is a total
function, so no exception escapes). -/
theorem resolver_fallback (net : Network) :
    (∀ body, net.primary = .ok body →
       get_public_ip net =
         ⟨[⟨"https://api.ipify.org", 5⟩], [], some (pystrip body)⟩) ∧
    (∀ msg, net.primary = .err msg →
       (get_public_ip net).requests =
         [⟨"https://api.ipify.org", 5⟩, ⟨"https://ifconfig.me/ip", 5⟩] ∧
       (get_public_ip net).requests.count ⟨"https://ifconfig.me/ip", 5⟩ = 1 ∧
       (∀ body, net.secondary = .ok body →
          (get_public_ip net).result = some (pystrip body) ∧
          (get_public_ip net).logs = []) ∧
       (∀ e, net.secondary = .err e →
          (get_public_ip net).result = none ∧
          (get_public_ip net).logs =
            ["[ERROR] Unable to retrieve public IP: " ++ e])) := by
  constructor
  · intro body hp
    simp [get_public_ip, hp]
  · intro msg hp
    have hreq : (get_public_ip net).requests =
        [⟨"https://api.ipify.org", 5⟩, ⟨"https://ifconfig.me/ip", 5⟩] := by
      cases hs : net.secondary <;> simp [get_public_ip, hp, hs]
    refine ⟨hreq, by rw [hreq]; decide, ?_, ?_⟩
    · intro body hs
      constructor <;> simp [get_public_ip, hp, hs]
    · intro e hs
      constructor <;> simp [get_public_ip, hp, hs]

/-- Witness for C6: primary succeeds with an untrimmed body; and a network
where both sources fail. -/
theorem resolver_fallback_witness :
    get_public_ip ⟨.ok " 1.2.3.4 ", .err "x"⟩ =
      ⟨[⟨"https://api.ipify.org", 5⟩], [], some (pystrip " 1.2.3.4 ")⟩ ∧
    (get_public_ip ⟨.err "m", .err "e"⟩).result = none ∧
    (get_public_ip ⟨.err "m", .err "e"⟩).logs =
      ["[ERROR] Unable to retrieve public IP: " ++ "e"] :=
  ⟨(resolver_fallback ⟨.ok " 1.2.3.4 ", .err "x"⟩).1 " 1.2.3.4 " rfl,
   (((resolver_fallback ⟨.err "m", .err "e"⟩).2 "m" rfl).2.2.2 "e" rfl).1,
   (((resolver_fallback ⟨.err "m", .err "e"⟩).2 "m" rfl).2.2.2 "e" rfl).2⟩

/-- C1: an invocation in normal mode with a stored previous address, a
resolver returning a different (non-empty) current address, and a quiet
heartbeat window (so the heartbeat check itself contributes nothing) sends
exactly one notification, whose body contains `current`; replaying the run
leaves `PreviousIP.txt` holding exactly `current` and `heartbeat.json`
holding the loaded record with `last_ip_change` set to the invocation
timestamp and `ip_change_count` incremented by exactly 1 — and that record
write is present in the trace (persisted). -/
theorem change_detection_correct (fs : FSState) (heartbeat : HeartbeatRecord)
    (now : ℚ) (date : String) (net : Network) (nets : ℕ → Network)
    (previous current : String)
    (hfile : fs.heartbeatFile = some heartbeat)
    (hquiet : now - heartbeat.start_time < 2592000)
    (hprev : read_previous_ip fs = previous)
    (hres : (get_public_ip net).result = some current)
    (hne : previous ≠ current) (hcur : current ≠ "") :
    notifications (main false fs now date net nets) =
      [("Spectrum_PubIP", "Public IP Check-In - " ++ date ++ "\n\n" ++ current)] ∧
    strContains ("Public IP Check-In - " ++ date ++ "\n\n" ++ current) current ∧
    (runFS fs (main false fs now date net nets)).prevIPFile = some current ∧
    (runFS fs (main false fs now date net nets)).heartbeatFile =
      some { heartbeat with
               last_ip_change := now,
               ip_change_count := heartbeat.ip_change_count + 1 } ∧
    Event.writeHeartbeat { heartbeat with
                             last_ip_change := now,
                             ip_change_count := heartbeat.ip_change_count + 1 }
      ∈ main false fs now date net nets := by
  have hlogs := get_public_ip_logs_of_some net current hres
  have hmain : main false fs now date net nets =
      [Event.notify "Spectrum_PubIP" ("Public IP Check-In - " ++ date ++ "\n\n" ++ current),
       Event.writePrevIP current,
       Event.writeHeartbeat { heartbeat with
                                last_ip_change := now,
                                ip_change_count := heartbeat.ip_change_count + 1 }] := by
    simp only [main, hfile, load_heartbeat, handle_heartbeat_of_lt heartbeat now hquiet]
    simp [normal_branch, hlogs, hres, hprev, hne.symm]
  rw [hmain]
  refine ⟨by simp [notifications], ⟨"Public IP Check-In - " ++ date ++ "\n\n", "", by simp⟩,
    by simp [runFS, applyEvent], by simp [runFS, applyEvent], by simp⟩

/-- Witness for C1: stored "1.2.3.4", resolver returns "5.6.7.8". -/
theorem change_detection_correct_witness :
    notifications (main false ⟨some "1.2.3.4", some ⟨0, 0, 0⟩⟩ 100 "01/01/2026"
        ⟨.ok "5.6.7.8", .err "x"⟩ (fun _ => ⟨.err "y", .err "z"⟩)) =
      [("Spectrum_PubIP", "Public IP Check-In - " ++ "01/01/2026" ++ "\n\n" ++ "5.6.7.8")] ∧
    (runFS ⟨some "1.2.3.4", some ⟨0, 0, 0⟩⟩ (main false ⟨some "1.2.3.4", some ⟨0, 0, 0⟩⟩
        100 "01/01/2026" ⟨.ok "5.6.7.8", .err "x"⟩
        (fun _ => ⟨.err "y", .err "z"⟩))).prevIPFile = some "5.6.7.8" := by
  have h := change_detection_correct ⟨some "1.2.3.4", some ⟨0, 0, 0⟩⟩ ⟨0, 0, 0⟩ 100
    "01/01/2026" ⟨.ok "5.6.7.8", .err "x"⟩ (fun _ => ⟨.err "y", .err "z"⟩)
    "1.2.3.4" "5.6.7.8" rfl (by norm_num) (by decide) (by decide)
    (by decide) (by decide)
  exact ⟨h.1, h.2.2.1⟩

/-- C4: with no `PreviousIP.txt`, the stored value is the empty string, so a
non-empty resolved address is a change (notification sent, both files
written), while an empty resolved address on such a first run is not. -/
theorem first_run_behavior (fs : FSState) (heartbeat : HeartbeatRecord)
    (now : ℚ) (date : String) (net : Network) (current : String)
    (hnofile : fs.prevIPFile = none)
    (hres : (get_public_ip net).result = some current) :
    (current ≠ "" →
       notifications (normal_branch fs heartbeat now date net) =
         [("Spectrum_PubIP", "Public IP Check-In - " ++ date ++ "\n\n" ++ current)] ∧
       (runFS fs (normal_branch fs heartbeat now date net)).prevIPFile = some current ∧
       (runFS fs (normal_branch fs heartbeat now date net)).heartbeatFile =
         some { heartbeat with
                  last_ip_change := now,
                  ip_change_count := heartbeat.ip_change_count + 1 }) ∧
    (current = "" → normal_branch fs heartbeat now date net = []) := by
  have hlogs := get_public_ip_logs_of_some net current hres
  have hprev : read_previous_ip fs = "" := by simp [read_previous_ip, hnofile]
  constructor
  · intro hcur
    have htr : normal_branch fs heartbeat now date net =
        [Event.notify "Spectrum_PubIP" ("Public IP Check-In - " ++ date ++ "\n\n" ++ current),
         Event.writePrevIP current,
         Event.writeHeartbeat { heartbeat with
                                  last_ip_change := now,
                                  ip_change_count := heartbeat.ip_change_count + 1 }] := by
      simp [normal_branch, hlogs, hres, hprev, hcur]
    rw [htr]
    exact ⟨by simp [notifications], by simp [runFS, applyEvent], by simp [runFS, applyEvent]⟩
  · intro hcur
    simp [normal_branch, hlogs, hres, hprev, hcur]

/-- Witness for C4: no previous file; resolver returns "203.0.113.5" in one
run and the empty string in another. -/
theorem first_run_behavior_witness :
    notifications (normal_branch ⟨none, none⟩ ⟨0, 0, 0⟩ 0 "01/01/2026"
        ⟨.ok "203.0.113.5", .err "x"⟩) =
      [("Spectrum_PubIP", "Public IP Check-In - " ++ "01/01/2026" ++ "\n\n" ++ "203.0.113.5")] ∧
    normal_branch ⟨none, none⟩ ⟨0, 0, 0⟩ 0 "01/01/2026" ⟨.ok "", .err "x"⟩ = [] :=
  ⟨((first_run_behavior ⟨none, none⟩ ⟨0, 0, 0⟩ 0 "01/01/2026"
      ⟨.ok "203.0.113.5", .err "x"⟩ "203.0.113.5" rfl (by decide)).1 (by decide)).1,
   (first_run_behavior ⟨none, none⟩ ⟨0, 0, 0⟩ 0 "01/01/2026"
      ⟨.ok "", .err "x"⟩ "" rfl (by decide)).2 rfl⟩

/-- C9: on a detected change the branch's trace is exactly
notify-then-write-address-then-write-heartbeat; truncating the run before
the first write (a failed `PreviousIP.txt` write) leaves the notification
already sent and both files untouched, and truncating before the second
write leaves `heartbeat.json` untouched — the notify-and-persist step is
not atomic. -/
theorem notify_before_writes (fs : FSState) (heartbeat : HeartbeatRecord)
    (now : ℚ) (date : String) (net : Network) (current : String)
    (hres : (get_public_ip net).result = some current)
    (hchange : current ≠ read_previous_ip fs) :
    normal_branch fs heartbeat now date net =
      [Event.notify "Spectrum_PubIP" ("Public IP Check-In - " ++ date ++ "\n\n" ++ current),
       Event.writePrevIP current,
       Event.writeHeartbeat { heartbeat with
                                last_ip_change := now,
                                ip_change_count := heartbeat.ip_change_count + 1 }] ∧
    notifications ((normal_branch fs heartbeat now date net).take 1) =
      [("Spectrum_PubIP", "Public IP Check-In - " ++ date ++ "\n\n" ++ current)] ∧
    runFS fs ((normal_branch fs heartbeat now date net).take 1) = fs ∧
    (runFS fs ((normal_branch fs heartbeat now date net).take 2)).heartbeatFile =
      fs.heartbeatFile := by
  have hlogs := get_public_ip_logs_of_some net current hres
  have htr : normal_branch fs heartbeat now date net =
      [Event.notify "Spectrum_PubIP" ("Public IP Check-In - " ++ date ++ "\n\n" ++ current),
       Event.writePrevIP current,
       Event.writeHeartbeat { heartbeat with
                                last_ip_change := now,
                                ip_change_count := heartbeat.ip_change_count + 1 }] := by
    simp [normal_branch, hlogs, hres, hchange]
  rw [htr]
  exact ⟨rfl, by simp [notifications], by simp [runFS, applyEvent],
    by simp [runFS, applyEvent]⟩

/-- Witness for C9: a concrete changed address. -/
theorem notify_before_writes_witness :
    normal_branch ⟨some "1.2.3.4", some ⟨5, 7, 3⟩⟩ ⟨5, 7, 3⟩ 11 "01/01/2026"
        ⟨.ok "5.6.7.8", .err "x"⟩ =
      [Event.notify "Spectrum_PubIP"
         ("Public IP Check-In - " ++ "01/01/2026" ++ "\n\n" ++ "5.6.7.8"),
       Event.writePrevIP "5.6.7.8",
       Event.writeHeartbeat ⟨5, 11, 4⟩] :=
  (notify_before_writes ⟨some "1.2.3.4", some ⟨5, 7, 3⟩⟩ ⟨5, 7, 3⟩ 11 "01/01/2026"
    ⟨.ok "5.6.7.8", .err "x"⟩ "5.6.7.8" (by decide) (by decide)).1

/-- C10: when the heartbeat fires and a change is detected in the same
normal-mode invocation, the single `now` sampled at invocation start is used
both to reset `start_time` and to stamp `last_ip_change`; `heartbeat.json`
is written twice — first the reset record, then (since the Python dict is
shared) the record with `start_time = last_ip_change = now` and the count
incremented — so the heartbeat's reset is not lost by the change-path
write. -/
theorem heartbeat_and_change_share_timestamp (fs : FSState)
    (heartbeat : HeartbeatRecord) (now : ℚ) (date : String) (net : Network)
    (nets : ℕ → Network) (current : String)
    (hfile : fs.heartbeatFile = some heartbeat)
    (hfire : 2592000 ≤ now - heartbeat.start_time)
    (hres : (get_public_ip net).result = some current)
    (hchange : current ≠ read_previous_ip fs) :
    heartbeatWrites (main false fs now date net nets) =
      [{ heartbeat with start_time := now },
       ⟨now, now, heartbeat.ip_change_count + 1⟩] ∧
    (runFS fs (main false fs now date net nets)).heartbeatFile =
      some ⟨now, now, heartbeat.ip_change_count + 1⟩ := by
  have hlogs := get_public_ip_logs_of_some net current hres
  have hmain : main false fs now date net nets =
      [Event.notify "Spectrum_PubIP Heartbeat" (heartbeat_message heartbeat now),
       Event.log "[HEARTBEAT] Heartbeat notification sent to Apprise URLs.",
       Event.writeHeartbeat { heartbeat with start_time := now },
       Event.notify "Spectrum_PubIP" ("Public IP Check-In - " ++ date ++ "\n\n" ++ current),
       Event.writePrevIP current,
       Event.writeHeartbeat ⟨now, now, heartbeat.ip_change_count + 1⟩] := by
    simp only [main, hfile, load_heartbeat, handle_heartbeat_of_ge heartbeat now hfire]
    simp [normal_branch, hlogs, hres, hchange]
  rw [hmain]
  exact ⟨by simp [heartbeatWrites], by simp [runFS, applyEvent]⟩

/-- Witness for C10: heartbeat exactly at the threshold plus a change. -/
theorem heartbeat_and_change_share_timestamp_witness :
    heartbeatWrites (main false ⟨none, some ⟨0, 50, 2⟩⟩ 2592000 "01/01/2026"
        ⟨.ok "5.6.7.8", .err "x"⟩ (fun _ => ⟨.err "y", .err "z"⟩)) =
      [⟨2592000, 50, 2⟩, ⟨2592000, 2592000, 3⟩] :=
  (heartbeat_and_change_share_timestamp ⟨none, some ⟨0, 50, 2⟩⟩ ⟨0, 50, 2⟩ 2592000
    "01/01/2026" ⟨.ok "5.6.7.8", .err "x"⟩ (fun _ => ⟨.err "y", .err "z"⟩) "5.6.7.8"
    rfl (by norm_num) (by decide) (by decide)).1

/-- C7: under the ideal-time model the diagnostic branch started at `T` polls
the resolver at `T`, `T+90`, `T+180`, `T+270`, stops once elapsed time
reaches 300 seconds, then sends exactly one fixed test notification; it
performs no file write, so a verbose invocation's durable effect is exactly
that of its pre-branch heartbeat check. -/
theorem diagnostic_loop_timing (fs : FSState) (now : ℚ) (date : String)
    (net : Network) (nets : ℕ → Network) :
    pollTimes (verbose_branch nets now) = [now, now + 90, now + 180, now + 270] ∧
    notifications (verbose_branch nets now) =
      [("Spectrum_PubIP Test", "Apprise Test: 5 minutes elapsed in verbose mode.")] ∧
    fileWrites (verbose_branch nets now) = [] ∧
    runFS fs (main true fs now date net nets) =
      runFS fs (handle_heartbeat (load_heartbeat fs.heartbeatFile now) now).1 := by
  refine ⟨?_, ?_, ?_, ?_⟩
  · simp [verbose_branch, verbose_poll_zero, pollTimes]
  · simp [verbose_branch, verbose_poll_zero, notifications]
  · simp [verbose_branch, verbose_poll_zero, fileWrites]
  · simp only [main, if_true]
    rw [runFS, List.foldl_append]
    exact runFS_verbose _ nets now

/-- C8: `ip_change_count` starts at 0 when the record is synthesized, and
every heartbeat record any invocation writes carries a count equal to the
loaded one (heartbeat fire) or the loaded one plus exactly 1 (detected
change) — never less, so the persisted count never decreases across
invocations. -/
theorem change_count_monotone (verbose_mode : Bool) (fs : FSState) (now : ℚ)
    (date : String) (net : Network) (nets : ℕ → Network)
    (record : HeartbeatRecord)
    (hmem : Event.writeHeartbeat record ∈ main verbose_mode fs now date net nets) :
    (load_heartbeat none now).ip_change_count = 0 ∧
    (load_heartbeat fs.heartbeatFile now).ip_change_count ≤ record.ip_change_count ∧
    record.ip_change_count ≤ (load_heartbeat fs.heartbeatFile now).ip_change_count + 1 := by
  refine ⟨rfl, ?_⟩
  simp only [main, List.mem_append] at hmem
  rcases hmem with hmem | hmem
  · rw [writeHeartbeat_mem_handle _ now record hmem]
    simp
  · cases verbose_mode with
    | true =>
        simp only [if_true] at hmem
        exact absurd hmem (writeHeartbeat_not_mem_verbose nets now record)
    | false =>
        simp only [Bool.false_eq_true, if_false] at hmem
        rw [writeHeartbeat_mem_normal fs _ now date net record hmem]
        simp [handle_heartbeat_count]

/-- Witness for C8: a silent-heartbeat run that detects a change and writes
the incremented record. -/
theorem change_count_monotone_witness :
    (load_heartbeat none 0).ip_change_count = 0 ∧
    (load_heartbeat (FSState.mk (some "1.2.3.4") (some ⟨0, 0, 0⟩)).heartbeatFile 0).ip_change_count
        ≤ (HeartbeatRecord.mk 0 0 1).ip_change_count ∧
    (HeartbeatRecord.mk 0 0 1).ip_change_count
        ≤ (load_heartbeat (FSState.mk (some "1.2.3.4") (some ⟨0, 0, 0⟩)).heartbeatFile 0).ip_change_count + 1 :=
  change_count_monotone false ⟨some "1.2.3.4", some ⟨0, 0, 0⟩⟩ 0 "01/01/2026"
    ⟨.ok "5.6.7.8", .err "x"⟩ (fun _ => ⟨.err "y", .err "z"⟩) ⟨0, 0, 1⟩ (by
      have hne : pystrip "5.6.7.8" ≠ pystrip "1.2.3.4" := by decide
      simp only [main, load_heartbeat,
        handle_heartbeat_of_lt ⟨0, 0, 0⟩ 0 (by norm_num)]
      simp [normal_branch, get_public_ip, read_previous_ip, hne])

end PubIP
